import Mathlib

/-!
Verification development for the convertmaps-webhooks worker (`src/index.ts`).

The worker's normalization-and-attribution pipeline is shallowly embedded:

* JSON payloads (the output of `JSON.parse`) are modelled by `Json`.
  Such values never contain `undefined`, `NaN`, `Infinity` or functions.
* JavaScript numbers produced by coercions are modelled by `JNum`
  (`Option ℚ`, with `none` playing the role of `NaN`).  The exact
  rationals stand in for IEEE doubles; all concrete values exercised
  here are small integers or short decimal fractions, where the two
  semantics agree.
* A missing object property (`undefined`) is modelled as `Option Json`
  being `none`; `p?.f` style optional access is `jget`, plain `x.f`
  access (which throws a `TypeError` on `null`) is `jgetStrict`.
* Code that can throw (the normalizers) returns `Except String _`;
  an `Except.error` models a thrown exception, which the worker's
  top-level handler converts into an HTTP 500 response.
* `Number(x)` string coercion is modelled for optionally signed decimal
  numerals (the JSON-representable common case); exponent/hex forms and
  multi-element arrays are conservatively mapped to `NaN`, and nested
  singleton arrays beyond one level likewise.  No claim below depends
  on those unusual coercions.
* `Date.parse` is modelled for the ISO-8601 subset produced and consumed
  by the worker: `YYYY-MM-DD` and `YYYY-MM-DDTHH:MM:SS.mmmZ`.  ISO
  strings that the worker itself produces via `toISOString` are
  represented by their epoch timestamp (`ETime.iso`).
-/

/-- JSON values as produced by `JSON.parse`. -/
inductive Json where
  | null
  | bool (b : Bool)
  | num (q : ℚ)
  | str (s : String)
  | arr (elems : List Json)
  | obj (fields : List (String × Json))
deriving Repr

/-- A JavaScript number; `none` models `NaN`. -/
abbrev JNum := Option ℚ

/-- Field lookup in an object; on duplicate keys `JSON.parse` keeps the
last occurrence, so later bindings win. -/
def Json.lookupField : List (String × Json) → String → Option Json
  | [], _ => none
  | (k, v) :: rest, f =>
      match Json.lookupField rest f with
      | some v' => some v'
      | none => if k = f then some v else none

/-- Optional-chained property access `x?.f`: `undefined` on anything that
is not an object with the field (property reads on primitives yield
`undefined`, and `?.` short-circuits `null`/`undefined`). -/
def jget : Option Json → String → Option Json
  | some (.obj fs), f => Json.lookupField fs f
  | _, _ => none

/-- Plain property access `x.f` on a value known not to be `undefined`:
throws a `TypeError` when `x` is `null`, reads the field on objects, and
yields `undefined` on other primitives. -/
def jgetStrict : Json → String → Except String (Option Json)
  | .null, f => .error ("Cannot read properties of null (reading " ++ f ++ ")")
  | .obj fs, f => .ok (Json.lookupField fs f)
  | _, _ => .ok none

/-- JavaScript truthiness of a possibly-`undefined` value. -/
def truthy : Option Json → Bool
  | none => false
  | some .null => false
  | some (.bool b) => b
  | some (.num q) => q != 0
  | some (.str s) => s != ""
  | some (.arr _) => true
  | some (.obj _) => true

/-- The value of `a || b` (first truthy operand, else the second). -/
def jsOr (a b : Option Json) : Option Json := if truthy a then a else b

/-- The value of `a || d` where the fallback `d` is a literal. -/
def jsOrD (a : Option Json) (d : Json) : Json :=
  if truthy a then a.getD d else d

/-- Strict string equality test `v === s` for a literal string `s`. -/
def isStrEq (v : Option Json) (s : String) : Bool :=
  match v with
  | some (.str t) => t == s
  | _ => false

def digVal (c : Char) : ℕ := c.toNat - 48

def natOfDigits (cs : List Char) : ℕ :=
  cs.foldl (fun acc c => acc * 10 + digVal c) 0

/-- Core of decimal-numeral parsing: digits with an optional fraction. -/
def parseNumCore (cs : List Char) : JNum :=
  let p := cs.span Char.isDigit
  match p.2 with
  | [] => if p.1.isEmpty then none else some (natOfDigits p.1)
  | '.' :: fp =>
      if fp.all Char.isDigit && (!p.1.isEmpty || !fp.isEmpty) then
        some ((natOfDigits p.1 : ℚ) + (natOfDigits fp : ℚ) / (10 : ℚ) ^ fp.length)
      else none
  | _ => none

/-- Whitespace trimming on both ends of a character list (the effect of
`String.trim` before numeric coercion). -/
def jsTrimList (cs : List Char) : List Char :=
  ((cs.dropWhile Char.isWhitespace).reverse.dropWhile Char.isWhitespace).reverse

/-- `Number(s)` for a string: whitespace-trimmed, empty means `0`,
otherwise an optionally signed decimal numeral, else `NaN`. -/
def parseNumStr (s : String) : JNum :=
  match jsTrimList s.data with
  | [] => some 0
  | '-' :: cs => (parseNumCore cs).map (fun q => -q)
  | '+' :: cs => parseNumCore cs
  | cs => parseNumCore cs

/-- `Number()` coercion of a non-array JSON value. -/
def toNumLeaf : Json → JNum
  | .null => some 0
  | .bool b => some (if b then 1 else 0)
  | .num q => some q
  | .str s => parseNumStr s
  | .arr _ => none
  | .obj _ => none

/-- `Number(x)` coercion of a possibly-`undefined` value.  Arrays coerce
through their joined string form: `[]` is `0`, a singleton coerces like
its element (one level deep), anything else is `NaN`. -/
def toNum : Option Json → JNum
  | none => none
  | some (.arr []) => some 0
  | some (.arr [x]) =>
      match x with
      | .arr _ => none
      | .bool _ => none
      | x => toNumLeaf x
  | some (.arr (_ :: _ :: _)) => none
  | some j => toNumLeaf j

/-- `Math.round`: round half toward positive infinity. -/
def jround (q : ℚ) : ℤ := ⌊q + 1 / 2⌋

/-- `Number.isInteger` on a genuine number. -/
def qIsInt (q : ℚ) : Bool := q.den == 1

/-- `Number.isInteger` on a JavaScript number (`false` on `NaN`). -/
def JNum.isInt : JNum → Bool
  | none => false
  | some q => qIsInt q

/-- The value of `x || d` for a number `x` (`NaN` and `0` are falsy). -/
def jnOr (x : JNum) (d : ℚ) : ℚ :=
  match x with
  | none => d
  | some q => if q = 0 then d else q

/-- `x < c` on a JavaScript number (`false` when `x` is `NaN`). -/
def JNum.ltb (x : JNum) (c : ℚ) : Bool :=
  match x with
  | none => false
  | some q => decide (q < c)

/-- `x > c` on a JavaScript number (`false` when `x` is `NaN`). -/
def JNum.gtb (x : JNum) (c : ℚ) : Bool :=
  match x with
  | none => false
  | some q => decide (q > c)

/-- `Math.abs x > c` on a JavaScript number (`false` when `x` is `NaN`). -/
def JNum.absGt (x : JNum) (c : ℚ) : Bool :=
  match x with
  | none => false
  | some q => decide (|q| > c)

/-- ASCII uppercasing (the effect of `toUpperCase` on the basic-latin
strings exercised here). -/
def jsUpper (s : String) : String := ⟨s.data.map Char.toUpper⟩

/-- The expression `(v || "USD").toUpperCase()` used for every currency
field: a truthy non-string makes `toUpperCase` throw a `TypeError`. -/
def toUpperCur (v : Option Json) : Except String String :=
  match jsOr v (some (.str "USD")) with
  | some (.str s) => .ok (jsUpper s)
  | _ => .error "toUpperCase is not a function"

/-- The value of `s || d` for strings (empty string is falsy). -/
def strOr (s d : String) : String := if s = "" then d else s

/-- Truncation toward zero, as `ToInteger` clips a `Date` time value. -/
def ratTrunc (q : ℚ) : ℤ := if 0 ≤ q then ⌊q⌋ else -⌊-q⌋

def digsVal (cs : List Char) : Option ℕ :=
  if cs.all Char.isDigit then some (natOfDigits cs) else none

/-- Days since the Unix epoch of a proleptic-Gregorian civil date. -/
def daysFromCivil (y : ℤ) (m d : ℕ) : ℤ :=
  let y' : ℤ := if m ≤ 2 then y - 1 else y
  let era : ℤ := Int.fdiv y' 400
  let yoe : ℤ := y' - era * 400
  let mp : ℤ := if m > 2 then (m : ℤ) - 3 else (m : ℤ) + 9
  let doy : ℤ := Int.fdiv (153 * mp + 2) 5 + (d : ℤ) - 1
  let doe : ℤ := yoe * 365 + Int.fdiv yoe 4 - Int.fdiv yoe 100 + doy
  era * 146097 + doe - 719468

/-- Epoch milliseconds of a UTC civil date-time. -/
def msOfCivil (y : ℤ) (mo dy h mi se ms : ℕ) : ℤ :=
  daysFromCivil y mo dy * 86400000 + h * 3600000 + mi * 60000 + se * 1000 + ms

def mkDateMs (ys ms ds : List Char) (h mi se msec : ℕ) : Option ℤ := do
  let y ← digsVal ys
  let mo ← digsVal ms
  let dy ← digsVal ds
  if 1 ≤ mo ∧ mo ≤ 12 ∧ 1 ≤ dy ∧ dy ≤ 31 then
    some (msOfCivil (y : ℤ) mo dy h mi se msec)
  else none

def parseIsoChars : List Char → Option ℤ
  | [y1, y2, y3, y4, '-', mo1, mo2, '-', d1, d2] =>
      mkDateMs [y1, y2, y3, y4] [mo1, mo2] [d1, d2] 0 0 0 0
  | [y1, y2, y3, y4, '-', mo1, mo2, '-', d1, d2, 'T',
     h1, h2, ':', mi1, mi2, ':', s1, s2, '.', x1, x2, x3, 'Z'] => do
      let h ← digsVal [h1, h2]
      let mi ← digsVal [mi1, mi2]
      let se ← digsVal [s1, s2]
      let msec ← digsVal [x1, x2, x3]
      if h ≤ 23 ∧ mi ≤ 59 ∧ se ≤ 59 then
        mkDateMs [y1, y2, y3, y4] [mo1, mo2] [d1, d2] h mi se msec
      else none
  | _ => none

/-- `Date.parse` on the ISO-8601 subset the worker produces and reads. -/
def parseIsoDate (s : String) : Option ℤ := parseIsoChars s.toList

/-- The `event_time` slot of a normalized event: either an ISO string
produced by the worker itself via `toISOString` (represented by its
epoch milliseconds) or a truthy payload value passed through. -/
inductive ETime where
  | iso (ms : ℤ)
  | val (j : Json)
deriving Repr

/-- `Date.parse` applied to a stored `event_time`.  Non-string payload
values are modelled as unparseable. -/
def dateParseE : ETime → Option ℤ
  | .iso ms => some ms
  | .val (.str s) => parseIsoDate s
  | .val _ => none

/-! ## Canonical data model (`NormalizedItem`, `NormalizedEvent`, mappings) -/

/-- A normalized line item (`NormalizedItem` in `src/index.ts`). -/
structure NormalizedItem where
  name : Option Json
  quantity : JNum
  unit_amount_cents : JNum
  currency : Option String
  is_bump : Option Bool
deriving Repr

/-- A normalized canonical event (`NormalizedEvent` in `src/index.ts`).
`provider_event_id = none` stands for a freshly generated random id
(`cryptoRandomId()`); the `String(...)` wrappers around ids are elided
and the chosen source value recorded instead, since nothing downstream
in the embedded pipeline inspects the id. -/
structure NormalizedEvent where
  provider : Json
  provider_event_id : Option Json
  provider_customer_id : Option Json
  etype : Json
  currency : String
  subtotal_cents : Option JNum
  discount_cents : Option JNum
  tax_cents : Option JNum
  total_cents : JNum
  items_count : ℕ
  session_id : Option Json
  visitor_id : Option Json
  event_time : ETime
  data : Option Json
  items : List NormalizedItem
deriving Repr

/-- One `node_products` row as fetched by `fetchNodeProductMappings`. -/
structure Mapping where
  product_id : String
  is_primary : Bool
  price_points_cents : Option (List ℚ)
deriving Repr

/-- An item after attribution (`NormalizedItem & { product_id?: string }`). -/
structure MappedItem where
  name : Option Json
  quantity : JNum
  unit_amount_cents : JNum
  currency : String
  is_bump : Option Bool
  product_id : Option String
deriving Repr

/-! ## Normalizers (`normalize*Loose`, `normalizeCustom`) -/

/-- `.map` over a JavaScript array where the callback may throw. -/
def mapME (f : Json → Except String NormalizedItem) :
    List Json → Except String (List NormalizedItem)
  | [] => .ok []
  | x :: xs =>
      match f x with
      | .error m => .error m
      | .ok y =>
          match mapME f xs with
          | .error m => .error m
          | .ok ys => .ok (y :: ys)

/-- The `createdISO` computation of `normalizeStripeLoose`:
`evt?.created ? new Date(evt.created * 1000).toISOString() : new
Date().toISOString()`.  A truthy `created` that does not yield a time
value within `±8.64e15` ms makes `toISOString` throw a `RangeError`
("Invalid time value"); otherwise the time value is clipped by
truncation toward zero. -/
def stripeEventTime (evt : Json) (now : ℤ) : Except String ETime :=
  let created := jget (some evt) "created"
  if truthy created then
    match toNum created with
    | none => .error "Invalid time value"
    | some q =>
        if |q * 1000| ≤ 8640000000000000 then .ok (.iso (ratTrunc (q * 1000)))
        else .error "Invalid time value"
  else .ok (.iso now)

def normalizeStripeLoose (evt : Json) (now : ℤ) : Except String NormalizedEvent :=
  match stripeEventTime evt now with
  | .error m => .error m
  | .ok eventTime =>
      let idv := jget (some evt) "id"
      let o : Option Json := jsOr (jget (jget (some evt) "data") "object") (some (.obj []))
      let ty := jget (some evt) "type"
      let totalCents : JNum :=
        if isStrEq ty "checkout.session.completed" then
          toNum (jsOr (jget o "amount_total") (some (.num 0)))
        else if isStrEq ty "payment_intent.succeeded" then
          toNum (jsOr (jget o "amount") (some (.num 0)))
        else if isStrEq ty "invoice.payment_succeeded" then
          toNum (jsOr (jget o "total") (some (.num 0)))
        else
          toNum (jsOr (jget o "amount_total") (jsOr (jget o "amount") (some (.num 0))))
      match toUpperCur (jget o "currency") with
      | .error m => .error m
      | .ok currency =>
          let cust := jget o "customer"
          .ok {
            provider := .str "stripe"
            provider_event_id := if truthy idv then idv else none
            provider_customer_id := if truthy cust then cust else none
            etype := .str "purchase"
            currency
            subtotal_cents := none, discount_cents := none, tax_cents := none
            total_cents := totalCents
            items_count := 0
            session_id := none, visitor_id := none
            event_time := eventTime
            data := none
            items := [] }

def normalizePaddleLoose (p : Json) (now : ℤ) : Except String NormalizedEvent :=
  match toUpperCur (jget (some p) "currency") with
  | .error m => .error m
  | .ok currency =>
      let rawTotal : JNum :=
        toNum (jsOr (jget (some p) "sale_gross")
          (jsOr (jget (some p) "total")
            (jsOr (jget (some p) "amount") (some (.num 0)))))
      let total_cents : JNum :=
        match rawTotal with
        | none => none
        | some v => some (jround (v * (if v < 1000 then 100 else 1)))
      let idv := jsOr (jget (some p) "event_id") (jget (some p) "alert_id")
      let et := jget (some p) "event_time"
      .ok {
        provider := .str "paddle"
        provider_event_id := if truthy idv then idv else none
        provider_customer_id := none
        etype := .str "purchase"
        currency
        subtotal_cents := none, discount_cents := none, tax_cents := none
        total_cents
        items_count := (match jget (some p) "items" with
          | some (.arr xs) => xs.length
          | _ => 0)
        session_id := none, visitor_id := none
        event_time := if truthy et then .val (et.getD .null) else .iso now
        data := none
        items := [] }

def normalizeLemonLoose (p : Json) (now : ℤ) : Except String NormalizedEvent :=
  let attrs := jget (jget (some p) "data") "attributes"
  match toUpperCur (jget attrs "currency") with
  | .error m => .error m
  | .ok currency =>
      let idv := jget (jget (some p) "meta") "event_id"
      let et := jget attrs "created_at"
      .ok {
        provider := .str "lemonsqueezy"
        provider_event_id := if truthy idv then idv else none
        provider_customer_id := none
        etype := .str "purchase"
        currency
        subtotal_cents := none, discount_cents := none, tax_cents := none
        total_cents := toNum (jsOr (jget attrs "total") (some (.num 0)))
        items_count := 0
        session_id := none, visitor_id := none
        event_time := if truthy et then .val (et.getD .null) else .iso now
        data := none
        items := [] }

/-- One Shopify line item: `{ name: li.title, quantity: Number(li.quantity
|| 1), unit_amount_cents: Math.round(Number(li.price) * 100) || 0,
currency }`.  The plain property reads throw when the element is `null`. -/
def shopifyItem (currency : String) (li : Json) : Except String NormalizedItem :=
  match jgetStrict li "title" with
  | .error m => .error m
  | .ok nm =>
      match jgetStrict li "quantity" with
      | .error m => .error m
      | .ok qv =>
          match jgetStrict li "price" with
          | .error m => .error m
          | .ok pv =>
              .ok {
                name := nm
                quantity := toNum (jsOr qv (some (.num 1)))
                unit_amount_cents :=
                  match toNum pv with
                  | none => some 0
                  | some q => some (jround (q * 100))
                currency := some currency
                is_bump := none }

def normalizeShopifyLoose (p : Json) (now : ℤ) : Except String NormalizedEvent :=
  match toUpperCur (jget (some p) "currency") with
  | .error m => .error m
  | .ok currency =>
      let total_cents : JNum :=
        match toNum (jsOr (jget (some p) "total_price")
            (jsOr (jget (some p) "subtotal_price") (some (.num 0)))) with
        | none => none
        | some q => some (jround (q * 100))
      match (match jget (some p) "line_items" with
             | some (.arr ls) => mapME (shopifyItem currency) ls
             | _ => .ok []) with
      | .error m => .error m
      | .ok items =>
          let idv := jget (some p) "id"
          let et := jget (some p) "created_at"
          .ok {
            provider := .str "shopify"
            provider_event_id := if truthy idv then idv else none
            provider_customer_id := none
            etype := .str "purchase"
            currency
            subtotal_cents := none, discount_cents := none, tax_cents := none
            total_cents
            items_count := items.length
            session_id := none, visitor_id := none
            event_time := if truthy et then .val (et.getD .null) else .iso now
            data := none
            items }

/-- One custom line item: field-for-field mapping, with the per-item
currency expression `(i.currency || payload?.currency ||
"USD").toUpperCase()`. -/
def customItem (pcur : Option Json) (i : Json) : Except String NormalizedItem :=
  match jgetStrict i "name" with
  | .error m => .error m
  | .ok nm =>
      match jgetStrict i "quantity" with
      | .error m => .error m
      | .ok qv =>
          match jgetStrict i "unit_amount_cents" with
          | .error m => .error m
          | .ok uv =>
              match jgetStrict i "currency" with
              | .error m => .error m
              | .ok cv =>
                  match toUpperCur (jsOr cv pcur) with
                  | .error m => .error m
                  | .ok cur =>
                      match jgetStrict i "is_bump" with
                      | .error m => .error m
                      | .ok bv =>
                          .ok {
                            name := nm
                            quantity := toNum (jsOr qv (some (.num 1)))
                            unit_amount_cents := toNum (jsOr uv (some (.num 0)))
                            currency := some cur
                            is_bump := some (truthy bv) }

def normalizeCustom (payload : Json) (now : ℤ) : Except String NormalizedEvent :=
  match toUpperCur (jget (some payload) "currency") with
  | .error m => .error m
  | .ok currency =>
      let itemsV := jget (some payload) "items"
      match (if truthy itemsV then
               match itemsV with
               | some (.arr xs) => mapME (customItem (jget (some payload) "currency")) xs
               | _ => .error "payload.items.map is not a function"
             else .ok []) with
      | .error m => .error m
      | .ok items =>
          let idv := jsOr (jget (some payload) "provider_event_id") (jget (some payload) "id")
          let et := jget (some payload) "event_time"
          .ok {
            provider := jsOrD (jget (some payload) "provider") (.str "custom")
            provider_event_id := if truthy idv then idv else none
            provider_customer_id := none
            etype := jsOrD (jget (some payload) "type") (.str "purchase")
            currency
            subtotal_cents := some (toNum (jsOr (jget (some payload) "subtotal_cents") (some (.num 0))))
            discount_cents := some (toNum (jsOr (jget (some payload) "discount_cents") (some (.num 0))))
            tax_cents := some (toNum (jsOr (jget (some payload) "tax_cents") (some (.num 0))))
            total_cents := toNum (jsOr (jget (some payload) "total_cents") (some (.num 0)))
            items_count := (match jget (some payload) "items" with
              | some (.arr xs) => xs.length
              | _ => 0)
            session_id := jget (some payload) "session_id"
            visitor_id := jget (some payload) "visitor_id"
            event_time := if truthy et then .val (et.getD .null) else .iso now
            data := some (jsOrD (jget (some payload) "data") (.obj []))
            items }

/-! ## Provider detection (`detectAndNormalize`) -/

/-- Detection rule 1 of `detectAndNormalize`:
`p?.object === "event" || (typeof p?.type === "string" && p.type.includes("."))`. -/
def stripeCond (p : Json) : Bool :=
  isStrEq (jget (some p) "object") "event" ||
  (match jget (some p) "type" with
   | some (.str s) => s.data.contains '.'
   | _ => false)

/-- Detection rule 2: `p?.alert_id || p?.event_time || p?.order_id`. -/
def paddleCond (p : Json) : Bool :=
  truthy (jget (some p) "alert_id") || truthy (jget (some p) "event_time") ||
  truthy (jget (some p) "order_id")

/-- Detection rule 3: `p?.meta?.event_name || p?.data?.attributes?.total`. -/
def lemonCond (p : Json) : Bool :=
  truthy (jget (jget (some p) "meta") "event_name") ||
  truthy (jget (jget (jget (some p) "data") "attributes") "total")

/-- Detection rule 4: `p?.line_items && (p?.total_price || p?.subtotal_price)`. -/
def shopifyCond (p : Json) : Bool :=
  truthy (jget (some p) "line_items") &&
  (truthy (jget (some p) "total_price") || truthy (jget (some p) "subtotal_price"))

/-- Detection rule 5: `p?.total_cents || p?.items`. -/
def customCond (p : Json) : Bool :=
  truthy (jget (some p) "total_cents") || truthy (jget (some p) "items")

/-- `detectAndNormalize`: the ordered if-chain of detection rules, each
branch running its normalizer; `ok none` models returning `null`
(unsupported payload), `error` models a thrown exception. -/
def detectAndNormalize (p : Json) (now : ℤ) : Except String (Option NormalizedEvent) :=
  if stripeCond p then (normalizeStripeLoose p now).map some
  else if paddleCond p then (normalizePaddleLoose p now).map some
  else if lemonCond p then (normalizeLemonLoose p now).map some
  else if shopifyCond p then (normalizeShopifyLoose p now).map some
  else if customCond p then (normalizeCustom p now).map some
  else .ok none

/-! ## Attribution (`mapItemsToProducts`) and the zero-items fallback -/

/-- The per-mapping predicate inside `mappings.find(...)` of
`mapItemsToProducts`, for an item amount already known to be a truthy
number: some price point `p` satisfies
`Math.abs(p - unit) <= Math.max(1, p * 0.05)`.  A `null`
`price_points_cents` fails the guard; an empty array passes the guard
but has no matching point. -/
def priceMatches (unit : ℚ) (m : Mapping) : Bool :=
  match m.price_points_cents with
  | none => false
  | some pts => pts.any (fun p => decide (|p - unit| ≤ max 1 (p * (5 / 100))))

/-- The body of `mappings.find(...)` plus the subsequent `product_id`
selection inside `items.map(...)` of `mapItemsToProducts`: the first
mapping whose (non-`null`) price points contain a point within tolerance
of the item's truthy amount wins; the guard `!it.unit_amount_cents`
makes a zero or `NaN` amount match nothing; without a match the primary
mapping's product (computed once, before the map) is used. -/
def codeItemProduct (mappings : List Mapping) (primary : Option Mapping)
    (it : NormalizedItem) : Option String :=
  match mappings.find? (fun m =>
      match it.unit_amount_cents with
      | none => false
      | some u => if u = 0 then false else priceMatches u m) with
  | some m => some m.product_id
  | none => primary.map (·.product_id)

/-- `mapItemsToProducts(items, mappings, defaultCurrency)`. -/
def mapItemsToProducts (items : List NormalizedItem) (mappings : List Mapping)
    (defaultCurrency : String) : List MappedItem :=
  if items.isEmpty then []
  else
    items.map (fun it =>
      { name := it.name
        quantity := it.quantity
        unit_amount_cents := it.unit_amount_cents
        currency :=
          match it.currency with
          | some c => if c = "" then strOr defaultCurrency "USD" else c
          | none => strOr defaultCurrency "USD"
        is_bump := it.is_bump
        product_id := codeItemProduct mappings (mappings.find? (·.is_primary)) it })

/-- Lines 234-251 of `fetch`: map the normalized items to products, and
when no items were mapped and a primary mapping exists, synthesize a
single "Order" item carrying the event's total. -/
def attributeItems (norm : NormalizedEvent) (mappings : List Mapping) : List MappedItem :=
  if (mapItemsToProducts norm.items mappings (strOr norm.currency "USD")).isEmpty
      && !mappings.isEmpty then
    match mappings.find? (·.is_primary) with
    | some primary =>
        [{ name := some (.str "Order")
           quantity := some 1
           unit_amount_cents := norm.total_cents
           currency := strOr norm.currency "USD"
           is_bump := some false
           product_id := some primary.product_id }]
    | none => mapItemsToProducts norm.items mappings (strOr norm.currency "USD")
  else mapItemsToProducts norm.items mappings (strOr norm.currency "USD")

/-! ## Validation (lines 141-186 of `fetch`) -/

/-- Outcome of the validation stage of the request handler: a JSON error
response with its status code, or the accepted normalized event that
proceeds to persistence.  A thrown exception surfaces as the top-level
handler's 500 response. -/
inductive VR where
  | reject (reason : String) (status : ℕ)
  | accept (e : NormalizedEvent)
deriving Repr

/-- `typeof payload === "object" && payload !== null` (arrays included). -/
def isObjLike : Json → Bool
  | .obj _ => true
  | .arr _ => true
  | _ => false

def centsKeys : List String := ["subtotal_cents", "discount_cents", "tax_cents", "total_cents"]

/-- The loop over `centsKeys`: any present (non-nullish) raw field whose
`Number(...)` coercion is not an integer within the cap is rejected. -/
def centsCheck (p : Json) : Option String :=
  centsKeys.findSome? (fun k =>
    match jget (some p) k with
    | none => none
    | some .null => none
    | some v =>
        if !(JNum.isInt (toNum (some v))) || JNum.absGt (toNum (some v)) 100000000 then
          some ("Invalid value for " ++ k)
        else none)

/-- Lines 142-157: the raw-payload checks (object shape, `items` array
and count ceiling, cents-field bounds), first failure wins. -/
def rawReject (p : Json) : Option (String × ℕ) :=
  if !isObjLike p then some ("Invalid JSON object", 400)
  else
    let itemsV := jget (some p) "items"
    if truthy itemsV && !(match itemsV with | some (.arr _) => true | _ => false) then
      some ("items must be an array", 400)
    else if (match itemsV with | some (.arr xs) => decide (xs.length > 100) | _ => false) then
      some ("Too many items", 400)
    else
      match centsCheck p with
      | some r => some (r, 400)
      | none => none

/-- Lines 176-181, for one normalized item: the unit-amount check
(`!Number.isInteger(it?.unit_amount_cents || 0) ||
Math.abs(it.unit_amount_cents) > MAX_CENTS`) followed by the quantity
check (`!Number.isInteger(it?.quantity || 0) || it.quantity < 1 ||
it.quantity > 1000`). -/
def itemCheck (it : NormalizedItem) : Option String :=
  if !qIsInt (jnOr it.unit_amount_cents 0) || JNum.absGt it.unit_amount_cents 100000000 then
    some "Invalid unit_amount_cents"
  else if !qIsInt (jnOr it.quantity 0) || JNum.ltb it.quantity 1 || JNum.gtb it.quantity 1000 then
    some "Invalid quantity"
  else none

/-- The `for` loop over `norm.items`: first failing item wins. -/
def itemsCheck : List NormalizedItem → Option String
  | [] => none
  | it :: rest =>
      match itemCheck it with
      | some r => some r
      | none => itemsCheck rest

/-- Lines 172-186: deep item validation (only when `norm.items` is
non-empty) followed by the `total_cents` bound, then acceptance. -/
def afterStale (norm : NormalizedEvent) : VR :=
  match (if norm.items.length ≠ 0 then
           if norm.items.length > 100 then some "Too many items"
           else itemsCheck norm.items
         else none) with
  | some r => .reject r 400
  | none =>
      if !(JNum.isInt norm.total_cents) || JNum.absGt norm.total_cents 100000000 then
        .reject "Invalid total_cents" 400
      else .accept norm

/-- Lines 141-186 of `fetch`: raw checks, detection/normalization (a
thrown exception becomes the top-level 500), the staleness check
(`(Date.now() - evtMs) / (1000*60*60*24) > MAX_EVENT_AGE_DAYS`, skipped
when `Date.parse` yields `NaN`), then deep item and total validation.
`now` is the ambient clock in epoch milliseconds. -/
def validatePipeline (p : Json) (now : ℤ) : VR :=
  match rawReject p with
  | some rs => .reject rs.1 rs.2
  | none =>
      match detectAndNormalize p now with
      | .error m => .reject m 500
      | .ok none => .reject "Unsupported payload" 400
      | .ok (some norm) =>
          match dateParseE norm.event_time with
          | some t =>
              if ((now : ℚ) - (t : ℚ)) / 86400000 > 7 then .reject "Event too old" 422
              else afterStale norm
          | none => afterStale norm

/-! ## Spec-side definitions (stated from the spec's words, to be
compared with the embedded source functions) -/

/-- Modelled from the spec: the matching formula of section 4.4 — a
price point `p` with `|p - unit| <= max(1, p * 0.05)`. -/
def specPriceMatch (unit : ℚ) (m : Mapping) : Bool :=
  match m.price_points_cents with
  | none => false
  | some pts => pts.any (fun p => decide (|p - unit| ≤ max 1 (p * (5 / 100))))

/-- Modelled from the spec: the per-item assignment of section 4.4 —
first mapping whose price points match wins, else the primary mapping's
product, else no product. -/
def specAssignedProduct (mappings : List Mapping) (unit : ℚ) : Option String :=
  match mappings.find? (specPriceMatch unit) with
  | some m => some m.product_id
  | none => (mappings.find? (·.is_primary)).map (·.product_id)

/-- The fallback product assignment used for items that never
price-match: the primary mapping's product when one exists. -/
def primaryProduct (mappings : List Mapping) : Option String :=
  (mappings.find? (·.is_primary)).map (·.product_id)

/-- The shape tags of the provider detector. -/
inductive Shape where
  | stripe | paddle | lemon | shopify | custom
deriving Repr, DecidableEq

/-- Modelled from the spec (amended): the ordered first-match-wins
classification, with each signal read by JavaScript truthiness. -/
def classifyShape (p : Json) : Option Shape :=
  if stripeCond p then some .stripe
  else if paddleCond p then some .paddle
  else if lemonCond p then some .lemon
  else if shopifyCond p then some .shopify
  else if customCond p then some .custom
  else none

/-- Run the normalizer selected by a classification. -/
def runShape : Option Shape → Json → ℤ → Except String (Option NormalizedEvent)
  | some .stripe, p, now => (normalizeStripeLoose p now).map some
  | some .paddle, p, now => (normalizePaddleLoose p now).map some
  | some .lemon, p, now => (normalizeLemonLoose p now).map some
  | some .shopify, p, now => (normalizeShopifyLoose p now).map some
  | some .custom, p, now => (normalizeCustom p now).map some
  | none, _, _ => .ok none

/-- Modelled from the spec (amended): the Shopify total — `total_price`
when truthy, else `subtotal_price` when truthy, else `0`, coerced and
then `round(value * 100)`. -/
def shopifySpecTotal (p : Json) : JNum :=
  let src :=
    if truthy (jget (some p) "total_price") then jget (some p) "total_price"
    else if truthy (jget (some p) "subtotal_price") then jget (some p) "subtotal_price"
    else some (.num 0)
  match toNum src with
  | none => none
  | some q => some (jround (q * 100))

/-- Modelled from the spec (amended): a line item's cents amount —
`round(price * 100)` when `price` coerces to a number, else `0`. -/
def shopifySpecUnit (li : Json) : JNum :=
  match toNum (jget (some li) "price") with
  | none => some 0
  | some q => some (jround (q * 100))

/-- Modelled from the spec (amended): a line item's quantity — the
coercion of `quantity` when that field is truthy (so a non-numeric
truthy string yields `NaN`), else the default `1`. -/
def shopifySpecQty (li : Json) : JNum :=
  let qv := jget (some li) "quantity"
  if truthy qv then toNum qv else some 1

/-- Modelled from the spec (amended): the Paddle total — sourced from
the first truthy of `sale_gross`, `total`, `amount` (else `0`), coerced;
a numeric value `v < 1000` is scaled by `100`, otherwise kept. -/
def paddleSpecTotal (p : Json) : JNum :=
  let src :=
    if truthy (jget (some p) "sale_gross") then jget (some p) "sale_gross"
    else if truthy (jget (some p) "total") then jget (some p) "total"
    else if truthy (jget (some p) "amount") then jget (some p) "amount"
    else some (.num 0)
  match toNum src with
  | none => none
  | some v => some (jround (v * (if v < 1000 then 100 else 1)))

/-- Modelled from the spec (amended): the output currency of the
attribution matcher — the item's currency when non-empty, else the
default currency when non-empty, else `"USD"`. -/
def specCurrency (itc : Option String) (d : String) : String :=
  match itc with
  | some c => if c ≠ "" then c else (if d ≠ "" then d else "USD")
  | none => if d ≠ "" then d else "USD"

/-! ## Success conditions for the normalizers (claim C3) -/

/-- A currency-bearing field is safe for `(v || "USD").toUpperCase()`
exactly when it is falsy or a string. -/
def curOk (v : Option Json) : Bool :=
  !(truthy v) || (match v with | some (.str _) => true | _ => false)

def Json.isNull : Json → Bool
  | .null => true
  | _ => false

/-- The stripe-like normalizer's success condition: a truthy `created`
must coerce to an in-range time value, and the currency read from
`data.object` must be upper-casable. -/
def stripeOk (p : Json) : Bool :=
  (!(truthy (jget (some p) "created")) ||
    (match toNum (jget (some p) "created") with
     | none => false
     | some q => decide (|q * 1000| ≤ 8640000000000000))) &&
  curOk (jget (jsOr (jget (jget (some p) "data") "object") (some (.obj []))) "currency")

/-- The shopify-like normalizer's success condition on items: when
`line_items` is an array, no element is `null`. -/
def shopifyItemsOk (p : Json) : Bool :=
  match jget (some p) "line_items" with
  | some (.arr ls) => ls.all (fun li => !li.isNull)
  | _ => true

/-- The custom normalizer's success condition: safe top-level currency,
and a truthy `items` must be an array of non-`null` elements whose
per-item currency expression is safe. -/
def customOk (p : Json) : Bool :=
  curOk (jget (some p) "currency") &&
  (!(truthy (jget (some p) "items")) ||
    (match jget (some p) "items" with
     | some (.arr xs) =>
         xs.all (fun i => !i.isNull &&
           curOk (jsOr (jget (some i) "currency") (jget (some p) "currency")))
     | _ => false))

/-- The conditions under which detection-plus-normalization cannot
throw, by detected shape. -/
def normOk (p : Json) : Bool :=
  match classifyShape p with
  | some .stripe => stripeOk p
  | some .paddle => curOk (jget (some p) "currency")
  | some .lemon => curOk (jget (jget (jget (some p) "data") "attributes") "currency")
  | some .shopify => curOk (jget (some p) "currency") && shopifyItemsOk p
  | some .custom => customOk p
  | none => true

/-! ## Projection helpers used in theorem statements -/

/-- Whether a detection/normalization result is a non-throwing one. -/
def exOk : Except String (Option NormalizedEvent) → Bool
  | .ok _ => true
  | .error _ => false

/-- The provider tag of a successfully normalized event, when any. -/
def providerOf : Except String (Option NormalizedEvent) → Option Json
  | .ok (some e) => some e.provider
  | _ => none

/-- The per-item unit amounts of an accepted event. -/
def acceptedUnits : VR → Option (List JNum)
  | .accept e => some (e.items.map (·.unit_amount_cents))
  | _ => none

/-- Whether a validation outcome is acceptance. -/
def isAccept : VR → Bool
  | .accept _ => true
  | _ => false

/-- The item-validation verdict on the event produced by
detection/normalization, when one was produced. -/
def normItemsCheck : Except String (Option NormalizedEvent) → Option (Option String)
  | .ok (some e) => some (itemsCheck e.items)
  | _ => none

/-! ## Concrete payloads and events used in the theorems below -/

def itW10 : NormalizedItem := ⟨some (.str "n"), some 2, some 7, none, some true⟩

def mpW6 : Mapping := ⟨"prime", true, some [9900]⟩

def normW6 : NormalizedEvent :=
  ⟨.str "custom", none, none, .str "purchase", "USD", none, none, none,
   some 9900, 0, none, none, .iso 0, none, []⟩

def normW6b : NormalizedEvent :=
  ⟨.str "custom", none, none, .str "purchase", "USD", none, none, none,
   some 9900, 1, none, none, .iso 0, none, [⟨none, some 1, some 5, none, none⟩]⟩

def paddleZeroGross : Json :=
  .obj [("alert_id", .num 1), ("sale_gross", .num 0), ("total", .str "7")]

def paddleW9 : Json := .obj [("order_id", .num 5), ("total", .str "12.5")]

def paddleEvtW9 : NormalizedEvent :=
  { provider := .str "paddle", provider_event_id := none, provider_customer_id := none,
    etype := .str "purchase", currency := "USD",
    subtotal_cents := none, discount_cents := none, tax_cents := none,
    total_cents := some 1250, items_count := 0, session_id := none, visitor_id := none,
    event_time := .iso 0, data := none, items := [] }

def shopifyZeroTotal : Json :=
  .obj [("line_items", .arr [.obj [("price", .str "2"), ("quantity", .str "abc")]]),
        ("total_price", .num 0), ("subtotal_price", .num 5)]

def shopifyW5 : Json :=
  .obj [("line_items", .arr [.obj [("title", .str "A"), ("price", .str "3.5"),
                                   ("quantity", .num 2)]]),
        ("total_price", .str "10.25")]

def shopifyEvtW5 : NormalizedEvent :=
  { provider := .str "shopify", provider_event_id := none, provider_customer_id := none,
    etype := .str "purchase", currency := "USD",
    subtotal_cents := none, discount_cents := none, tax_cents := none,
    total_cents := some 1025, items_count := 1, session_id := none, visitor_id := none,
    event_time := .iso 0, data := none,
    items := [⟨some (.str "A"), some 2, some 350, some "USD", none⟩] }

def paddleShopifyMixed : Json :=
  .obj [("alert_id", .num 0), ("line_items", .arr [.obj []]), ("total_price", .num 1)]

def paddleShopifyTruthy : Json :=
  .obj [("alert_id", .num 9), ("line_items", .arr []), ("total_price", .num 1)]

def customW3 : Json :=
  .obj [("provider", .str "custom"), ("type", .str "purchase"),
        ("provider_event_id", .str "order_123"), ("currency", .str "USD"),
        ("total_cents", .num 9900),
        ("items", .arr [.obj [("name", .str "Pro"), ("quantity", .num 1),
                              ("unit_amount_cents", .num 9900)]])]

def staleInvalidItem : Json :=
  .obj [("line_items", .arr [.obj [("price", .num 2), ("quantity", .num 1500)]]),
        ("total_price", .num 5),
        ("created_at", .str "2026-10-01T00:00:00.000Z")]

def staleEvtW2 : NormalizedEvent :=
  { provider := .str "shopify", provider_event_id := none, provider_customer_id := none,
    etype := .str "purchase", currency := "USD",
    subtotal_cents := none, discount_cents := none, tax_cents := none,
    total_cents := some 500, items_count := 1, session_id := none, visitor_id := none,
    event_time := .val (.str "2026-10-01T00:00:00.000Z"), data := none,
    items := [⟨none, some 1500, some 200, some "USD", none⟩] }

def staleP8 : Json :=
  .obj [("line_items", .arr [.obj [("price", .num 2), ("quantity", .num 1)]]),
        ("total_price", .num 5),
        ("created_at", .str "2026-10-03T00:00:00.000Z")]

def freshP6 : Json :=
  .obj [("line_items", .arr [.obj [("price", .num 2), ("quantity", .num 1)]]),
        ("total_price", .num 5),
        ("created_at", .str "2026-10-05T00:00:00.000Z")]

def staleEvtP8 : NormalizedEvent :=
  { provider := .str "shopify", provider_event_id := none, provider_customer_id := none,
    etype := .str "purchase", currency := "USD",
    subtotal_cents := none, discount_cents := none, tax_cents := none,
    total_cents := some 500, items_count := 1, session_id := none, visitor_id := none,
    event_time := .val (.str "2026-10-03T00:00:00.000Z"), data := none,
    items := [⟨none, some 1, some 200, some "USD", none⟩] }

def nanItemPayload : Json :=
  .obj [("total_cents", .num 100),
        ("items", .arr [.obj [("name", .str "x"), ("quantity", .num 1),
                              ("unit_amount_cents", .str "abc")]])]

def nanEvt7 : NormalizedEvent :=
  { provider := .str "custom", provider_event_id := none, provider_customer_id := none,
    etype := .str "purchase", currency := "USD",
    subtotal_cents := some (some 0), discount_cents := some (some 0), tax_cents := some (some 0),
    total_cents := some 100, items_count := 1, session_id := none, visitor_id := none,
    event_time := .iso 1791676800000, data := some (.obj []),
    items := [⟨some (.str "x"), some 1, none, some "USD", some false⟩] }

/-! ## Helper lemmas -/

lemma mapCongr {α β : Type} (f g : α → β) (h : ∀ a, f a = g a) :
    ∀ l : List α, l.map f = l.map g := by
  intro l
  induction l with
  | nil => rfl
  | cons a l ih => simp [h a, ih]

lemma findCongr {α : Type} (p q : α → Bool) (h : ∀ a, p a = q a) :
    ∀ l : List α, l.find? p = l.find? q := by
  intro l
  induction l with
  | nil => rfl
  | cons a l ih =>
      simp only [List.find?]
      rw [h a, ih]

lemma findFalse {α : Type} (p : α → Bool) (h : ∀ a, p a = false) :
    ∀ l : List α, l.find? p = none := by
  intro l
  induction l with
  | nil => rfl
  | cons a l ih =>
      simp only [List.find?]
      rw [h a, ih]

lemma find_some_ne_nil {α : Type} {p : α → Bool} {l : List α} {a : α}
    (h : l.find? p = some a) : l ≠ [] := by
  intro hnil
  subst hnil
  simp [List.find?] at h

lemma mapME_ok_forall2 {f : Json → Except String NormalizedItem} :
    ∀ {l : List Json} {ys : List NormalizedItem}, mapME f l = .ok ys →
      List.Forall₂ (fun a b => f a = .ok b) l ys := by
  intro l
  induction l with
  | nil =>
      intro ys h
      unfold mapME at h
      cases h
      exact List.Forall₂.nil
  | cons x xs ih =>
      intro ys h
      unfold mapME at h
      cases hf : f x <;> rw [hf] at h
      · cases h
      · cases hm : mapME f xs <;> rw [hm] at h
        · cases h
        · cases h
          exact List.Forall₂.cons hf (ih hm)

lemma mapME_ok_of_all {f : Json → Except String NormalizedItem} :
    ∀ {l : List Json}, (∀ x ∈ l, ∃ y, f x = .ok y) → ∃ ys, mapME f l = .ok ys := by
  intro l
  induction l with
  | nil => exact fun _ => ⟨[], rfl⟩
  | cons x xs ih =>
      intro h
      obtain ⟨y, hy⟩ := h x (by simp)
      obtain ⟨ys, hys⟩ := ih (fun a ha => h a (by simp [ha]))
      refine ⟨y :: ys, ?_⟩
      unfold mapME
      rw [hy, hys]

lemma jgetStrict_of_ne_null {li : Json} (f : String) (h : li.isNull = false) :
    jgetStrict li f = .ok (jget (some li) f) := by
  cases li <;> simp_all [jgetStrict, jget, Json.isNull]

lemma curOk_toUpper {v : Option Json} (h : curOk v = true) :
    ∃ s, toUpperCur v = .ok s := by
  unfold curOk at h
  unfold toUpperCur jsOr
  cases ht : truthy v with
  | false => exact ⟨"USD", by rfl⟩
  | true =>
      rw [ht] at h
      simp only [Bool.not_true, Bool.false_or] at h
      match v, h with
      | some (.str s), _ => exact ⟨jsUpper s, by rfl⟩

lemma afterStale_not_stale (norm : NormalizedEvent) :
    afterStale norm ≠ .reject "Event too old" 422 := by
  unfold afterStale
  split
  · intro h
    injection h with h1 h2
    exact absurd h2 (by decide)
  · split
    · intro h
      injection h with h1 h2
      exact absurd h2 (by decide)
    · intro h
      exact VR.noConfusion h

lemma detect_runShape (p : Json) (now : ℤ) :
    detectAndNormalize p now = runShape (classifyShape p) p now := by
  unfold detectAndNormalize classifyShape
  by_cases h1 : stripeCond p <;> simp only [h1, if_true, if_false]
  · rfl
  by_cases h2 : paddleCond p <;> simp only [h2, if_true, if_false]
  · rfl
  by_cases h3 : lemonCond p <;> simp only [h3, if_true, if_false]
  · rfl
  by_cases h4 : shopifyCond p <;> simp only [h4, if_true, if_false]
  · rfl
  by_cases h5 : customCond p <;> simp only [h5, if_true, if_false]
  · rfl
  · rfl

/-! ## Attribution lemmas -/

lemma codeItemProduct_spec (mappings : List Mapping) (it : NormalizedItem) :
    codeItemProduct mappings (mappings.find? (·.is_primary)) it =
      (match it.unit_amount_cents with
       | some u => if u ≠ 0 then specAssignedProduct mappings u else primaryProduct mappings
       | none => primaryProduct mappings) := by
  unfold codeItemProduct specAssignedProduct primaryProduct
  cases hu : it.unit_amount_cents with
  | none =>
      rw [findFalse _ (fun m => by simp [hu]) mappings]
  | some u =>
      by_cases h0 : u = 0
      · subst h0
        rw [findFalse _ (fun m => by simp [hu]) mappings]
        simp
      · have hpred : ∀ m : Mapping,
            (match (some u : JNum) with
             | none => false
             | some u => if u = 0 then false else priceMatches u m) = specPriceMatch u m := by
          intro m
          show (if u = 0 then false else priceMatches u m) = specPriceMatch u m
          rw [if_neg h0]
          rfl
        rw [findCongr _ _ hpred mappings]
        simp [h0]

lemma mapItems_product_ids (items : List NormalizedItem) (mappings : List Mapping)
    (cur : String) :
    (mapItemsToProducts items mappings cur).map (·.product_id) =
      items.map (fun it =>
        match it.unit_amount_cents with
        | some u => if u ≠ 0 then specAssignedProduct mappings u else primaryProduct mappings
        | none => primaryProduct mappings) := by
  unfold mapItemsToProducts
  cases items with
  | nil => rfl
  | cons a l =>
      simp only [List.isEmpty_cons, Bool.false_eq_true, if_false, List.map_map]
      exact mapCongr _ _ (fun it => codeItemProduct_spec mappings it) (a :: l)

/-! ## Claim C1 — attribution matcher -/

/-- Claim C1, as stated, is false: it asserts that every item receives
the product of the first mapping with a price point `p` satisfying
`|p - unit| <= max(1, p * 0.05)`.  For the item amount `0` and the price
point `1` the formula holds (`|1 - 0| = 1 <= max(1, 0.05)`), yet the
matcher's guard `!it.unit_amount_cents` skips falsy (zero) amounts, so
the item is left without a product (there is no primary here). -/
theorem c1_counterexample :
    (mapItemsToProducts [⟨none, some 1, some 0, none, none⟩]
        [⟨"prodB", false, some [1]⟩] "USD").map (·.product_id) = [none] ∧
    (|(1 : ℚ) - 0| ≤ max 1 (1 * (5 / 100))) := by
  exact ⟨rfl, by norm_num⟩

/-- Claim C1 (amended): for every item whose `unit_amount_cents` is a
truthy number (neither zero nor `NaN`), the matcher assigns the product
of the first mapping having some price point `p` with
`|p - unit| <= max(1, p * 0.05)`, falling back to the primary mapping's
product, else leaving the product empty; an item whose amount is zero or
`NaN` never price-matches and receives the primary product when one
exists.  The item itself is always kept.  In particular, with a price
point of `1000`, an item priced `1049` matches and an item priced `1051`
does not, falling back to the primary mapping when present. -/
theorem c1_attribution_matcher :
    (∀ (items : List NormalizedItem) (mappings : List Mapping) (cur : String),
      (mapItemsToProducts items mappings cur).map (·.product_id) =
        items.map (fun it =>
          match it.unit_amount_cents with
          | some u => if u ≠ 0 then specAssignedProduct mappings u else primaryProduct mappings
          | none => primaryProduct mappings)) ∧
    (mapItemsToProducts [⟨none, some 1, some 1049, none, none⟩]
        [⟨"prodA", false, some [1000]⟩] "USD").map (·.product_id) = [some "prodA"] ∧
    (mapItemsToProducts [⟨none, some 1, some 1051, none, none⟩]
        [⟨"prodA", false, some [1000]⟩] "USD").map (·.product_id) = [none] ∧
    (mapItemsToProducts [⟨none, some 1, some 1051, none, none⟩]
        [⟨"prodA", false, some [1000]⟩, ⟨"prodP", true, none⟩] "USD").map (·.product_id) =
      [some "prodP"] := by
  refine ⟨mapItems_product_ids, ?_, ?_, ?_⟩ <;>
    norm_num [mapItemsToProducts, codeItemProduct, priceMatches, List.find?]

/-! ## Claim C10 — frame property of the attribution matcher -/

/-- Claim C10, as stated, is false: it asserts that only an absent
currency may be replaced.  An item whose currency is present but empty
(`""`) also has its currency replaced by the default, because the code
tests `it.currency || defaultCurrency || "USD"` by truthiness. -/
theorem c10_counterexample :
    (mapItemsToProducts [⟨none, some 1, some 5, some "", none⟩] [] "EUR").map (·.currency) =
      ["EUR"] := by
  rfl

/-- Claim C10 (amended): for every non-empty item list the matcher
returns exactly one output item per input item, in order, preserving
`name`, `quantity`, `unit_amount_cents` and `is_bump`; the only altered
fields are the added product reference and the currency, which is
replaced exactly when absent or empty, by the default currency (itself
falling back to `"USD"` when empty). -/
theorem c10_matcher_frame (items : List NormalizedItem) (mappings : List Mapping)
    (cur : String) (h : items ≠ []) :
    (mapItemsToProducts items mappings cur).length = items.length ∧
    List.Forall₂ (fun it mi =>
        mi.name = it.name ∧ mi.quantity = it.quantity ∧
        mi.unit_amount_cents = it.unit_amount_cents ∧ mi.is_bump = it.is_bump ∧
        mi.currency = specCurrency it.currency cur)
      items (mapItemsToProducts items mappings cur) := by
  cases items with
  | nil => exact absurd rfl h
  | cons a l =>
      unfold mapItemsToProducts
      simp only [List.isEmpty_cons, Bool.false_eq_true, if_false]
      constructor
      · simp
      · rw [List.forall₂_map_right_iff]
        rw [List.forall₂_same]
        intro it _
        refine ⟨rfl, rfl, rfl, rfl, ?_⟩
        unfold specCurrency strOr
        cases it.currency with
        | none => simp
        | some c =>
            by_cases hc : c = "" <;> simp [hc]

/-- Witness for the amended claim C10 at a concrete non-empty item list. -/
theorem c10_matcher_frame_witness :
    ([itW10] ≠ ([] : List NormalizedItem)) ∧
    ((mapItemsToProducts [itW10] [] "USD").length = [itW10].length ∧
      List.Forall₂ (fun it mi =>
          mi.name = it.name ∧ mi.quantity = it.quantity ∧
          mi.unit_amount_cents = it.unit_amount_cents ∧ mi.is_bump = it.is_bump ∧
          mi.currency = specCurrency it.currency "USD")
        [itW10] (mapItemsToProducts [itW10] [] "USD")) :=
  ⟨by simp, c10_matcher_frame [itW10] [] "USD" (by simp)⟩

/-! ## Claim C6 — zero-items fallback attribution -/

/-- Claim C6: when the normalizer supplied zero items and the snapshot
contains a primary mapping, exactly one item is synthesized, with
quantity `1`, `unit_amount_cents` equal to the event's `total_cents` and
the primary mapping's product; when the normalizer supplied at least one
item, no item is synthesized (the mapped items pass through unchanged). -/
theorem c6_zero_items_fallback (norm : NormalizedEvent) (mappings : List Mapping) :
    (∀ pm, norm.items = [] → mappings.find? (·.is_primary) = some pm →
      attributeItems norm mappings =
        [{ name := some (.str "Order"), quantity := some 1,
           unit_amount_cents := norm.total_cents,
           currency := strOr norm.currency "USD", is_bump := some false,
           product_id := some pm.product_id }]) ∧
    (norm.items ≠ [] →
      attributeItems norm mappings =
        mapItemsToProducts norm.items mappings (strOr norm.currency "USD")) := by
  constructor
  · intro pm hitems hfind
    have hne := find_some_ne_nil hfind
    have hisE : mappings.isEmpty = false := by
      cases mappings with
      | nil => exact absurd rfl hne
      | cons a l => rfl
    simp [attributeItems, hitems, hisE, hfind,
      show mapItemsToProducts [] mappings (strOr norm.currency "USD") = [] from rfl]
  · intro hne
    cases hitems : norm.items with
    | nil => exact absurd hitems hne
    | cons a l =>
        have hmapped :
            (mapItemsToProducts (a :: l) mappings (strOr norm.currency "USD")).isEmpty = false := by
          unfold mapItemsToProducts
          simp
        simp [attributeItems, hitems, hmapped]

/-- Witness for claim C6 at concrete events with and without items. -/
theorem c6_zero_items_fallback_witness :
    (normW6.items = [] ∧
      attributeItems normW6 [mpW6] =
        [⟨some (.str "Order"), some 1, some 9900, strOr normW6.currency "USD",
          some false, some mpW6.product_id⟩]) ∧
    (normW6b.items ≠ [] ∧
      attributeItems normW6b [mpW6] =
        mapItemsToProducts normW6b.items [mpW6] (strOr normW6b.currency "USD")) :=
  ⟨⟨rfl, (c6_zero_items_fallback normW6 [mpW6]).1 mpW6 rfl rfl⟩,
   ⟨by simp [normW6b], (c6_zero_items_fallback normW6b [mpW6]).2 (by simp [normW6b])⟩⟩

/-! ## Claim C9 — paddle-like amount sourcing and unit-scale heuristic -/

/-- Claim C9, as stated, is false: it says the amount is sourced from
`sale_gross`, then `total`, then `amount`, first present wins.  Here
`sale_gross` is present with value `0`, so the claim predicts
`round(100 * 0) = 0`; the code tests truthiness, falls through to
`total = "7"` and stores `700`. -/
theorem c9_counterexample :
    (normalizePaddleLoose paddleZeroGross 0).map (·.total_cents) = .ok (some 700) ∧
    jget (some paddleZeroGross) "sale_gross" = some (.num 0) := by
  constructor
  · simp [normalizePaddleLoose, paddleZeroGross, toUpperCur, jsOr, jget, truthy,
      Json.lookupField, toNum, toNumLeaf, parseNumStr, jsTrimList, parseNumCore, jround,
      natOfDigits, digVal, Except.map]
    norm_num
  · rfl

/-- Claim C9 (amended): whenever the paddle-like normalizer returns an
event, its `total_cents` is the spec formula with first-truthy sourcing:
the value is taken from the first truthy of `sale_gross`, `total`,
`amount` (else `0`); a numeric coerced value `v < 1000` is stored as
`round(100 * v)`, any other numeric value as `round(v)`, and a
non-numeric coercion as `NaN`. -/
theorem c9_paddle_total (p : Json) (now : ℤ) {e : NormalizedEvent}
    (h : normalizePaddleLoose p now = .ok e) :
    e.total_cents = paddleSpecTotal p := by
  unfold normalizePaddleLoose at h
  cases hcur : toUpperCur (jget (some p) "currency") with
  | error m => rw [hcur] at h; cases h
  | ok c =>
      rw [hcur] at h
      cases h
      unfold paddleSpecTotal jsOr
      rfl

/-- Witness for the amended claim C9 at a concrete payload whose amount
comes from `total` and is scaled (`12.5 < 1000` becomes `1250` cents). -/
theorem c9_paddle_total_witness :
    normalizePaddleLoose paddleW9 0 = .ok paddleEvtW9 ∧
    paddleEvtW9.total_cents = paddleSpecTotal paddleW9 := by
  have h : normalizePaddleLoose paddleW9 0 = .ok paddleEvtW9 := by
    simp [normalizePaddleLoose, paddleW9, paddleEvtW9, toUpperCur, jsOr, jget, truthy,
      Json.lookupField, toNum, toNumLeaf, parseNumStr, jsTrimList, parseNumCore, jround,
      natOfDigits, digVal, jsUpper]
    norm_num
  exact ⟨h, c9_paddle_total paddleW9 0 h⟩

/-! ## Claim C5 — shopify-like amounts and quantities -/

lemma shopifyItem_fields (c : String) (li : Json) (it : NormalizedItem)
    (h : shopifyItem c li = .ok it) :
    it.unit_amount_cents = shopifySpecUnit li ∧ it.quantity = shopifySpecQty li := by
  cases hn : li.isNull with
  | true =>
      have hl : li = .null := by cases li <;> simp_all [Json.isNull]
      subst hl
      unfold shopifyItem jgetStrict at h
      cases h
  | false =>
      unfold shopifyItem at h
      rw [jgetStrict_of_ne_null "title" hn] at h
      rw [jgetStrict_of_ne_null "quantity" hn] at h
      rw [jgetStrict_of_ne_null "price" hn] at h
      cases h
      constructor
      · unfold shopifySpecUnit
        rfl
      · unfold shopifySpecQty jsOr
        cases ht : truthy (jget (some li) "quantity") <;> simp [ht, toNum, toNumLeaf]

/-- Claim C5 (amended): whenever the shopify-like normalizer returns an
event, `total_cents` is `round(100 * v)` where `v` is the coercion of
the first truthy of `total_price` and `subtotal_price` (else `0`), so a
present-but-zero `total_price` falls through to `subtotal_price`; each
line item's `unit_amount_cents` is `round(100 * price)` when `price`
coerces to a number and `0` otherwise; each item's quantity is the
coercion of a truthy `quantity` field (which is `NaN` for a non-numeric
truthy string) and defaults to `1` only when `quantity` is absent or
otherwise falsy. -/
theorem c5_shopify_amounts (p : Json) (now : ℤ) {e : NormalizedEvent}
    (h : normalizeShopifyLoose p now = .ok e) :
    e.total_cents = shopifySpecTotal p ∧
    ∀ ls, jget (some p) "line_items" = some (.arr ls) →
      List.Forall₂ (fun li it =>
          it.unit_amount_cents = shopifySpecUnit li ∧ it.quantity = shopifySpecQty li)
        ls e.items := by
  unfold normalizeShopifyLoose at h
  cases hcur : toUpperCur (jget (some p) "currency") with
  | error m => simp only [hcur] at h; cases h
  | ok c =>
      simp only [hcur] at h
      split at h
      · cases h
      · rename_i items heq
        simp only [Except.ok.injEq] at h
        subst h
        constructor
        · unfold shopifySpecTotal jsOr
          rfl
        · intro ls hls
          rw [hls] at heq
          exact (mapME_ok_forall2 heq).imp
            (fun li it hfi => shopifyItem_fields c li it hfi)

/-- Claim C5, as stated, is false on two counts at this payload (which
is shopify-like: `line_items` is truthy and `subtotal_price` is truthy).
`total_price` is present with value `0`, so the claim predicts
`total_cents = round(100 * 0) = 0`; the code's truthiness fallthrough
uses `subtotal_price = 5` and stores `500`.  The quantity `"abc"` is
present and non-numeric, so the claim predicts the default `1`; the code
computes `Number("abc" || 1) = NaN`. -/
theorem c5_counterexample :
    (normalizeShopifyLoose shopifyZeroTotal 0).map
      (fun e => (e.total_cents, e.items.map (·.quantity))) = .ok (some 500, [none]) := by
  simp [normalizeShopifyLoose, shopifyZeroTotal, shopifyItem, jgetStrict, toUpperCur, jsOr,
    jget, truthy, Json.lookupField, toNum, toNumLeaf, parseNumStr, jsTrimList, parseNumCore,
    jround, natOfDigits, digVal, mapME, Except.map]
  norm_num

/-- Witness for the amended claim C5 at a concrete shopify-like payload. -/
theorem c5_shopify_amounts_witness :
    normalizeShopifyLoose shopifyW5 0 = .ok shopifyEvtW5 ∧
    shopifyEvtW5.total_cents = shopifySpecTotal shopifyW5 ∧
    List.Forall₂ (fun li it =>
        it.unit_amount_cents = shopifySpecUnit li ∧ it.quantity = shopifySpecQty li)
      [.obj [("title", .str "A"), ("price", .str "3.5"), ("quantity", .num 2)]]
      shopifyEvtW5.items := by
  have h : normalizeShopifyLoose shopifyW5 0 = .ok shopifyEvtW5 := by
    simp [normalizeShopifyLoose, shopifyW5, shopifyEvtW5, shopifyItem, jgetStrict, toUpperCur,
      jsOr, jget, truthy, Json.lookupField, toNum, toNumLeaf, parseNumStr, jsTrimList,
      parseNumCore, jround, natOfDigits, digVal, mapME, jsUpper]
    norm_num
  exact ⟨h, (c5_shopify_amounts shopifyW5 0 h).1,
    (c5_shopify_amounts shopifyW5 0 h).2 _ rfl⟩

/-! ## Claim C4 — detector ordering -/

/-- Claim C4, as stated, is false: it reads the signals as field
presence.  This payload carries a paddle-like signal in the claim's
sense (`alert_id` is present) together with a shopify-like signal
(`line_items` array plus `total_price`), so the claim predicts a
paddle-like classification; but `alert_id` is `0`, hence falsy, and the
detector classifies the payload shopify-like. -/
theorem c4_counterexample :
    jget (some paddleShopifyMixed) "alert_id" = some (.num 0) ∧
    providerOf (detectAndNormalize paddleShopifyMixed 0) = some (.str "shopify") := by
  constructor
  · rfl
  · simp [providerOf, detectAndNormalize, paddleShopifyMixed, stripeCond, paddleCond,
      lemonCond, shopifyCond, customCond, isStrEq, normalizeShopifyLoose, shopifyItem,
      jgetStrict, toUpperCur, jsOr, jget, truthy, Json.lookupField, toNum, toNumLeaf,
      parseNumStr, jsTrimList, parseNumCore, jround, natOfDigits, digVal, mapME,
      Except.map]

/-- Claim C4 (amended): the detector applies the fixed ordered rules
with first match winning, each signal read by JavaScript truthiness:
stripe-like (`object === "event"` or a dotted `type` string), then
paddle-like (`alert_id`, `event_time` or `order_id` truthy), then
lemon-like (`meta.event_name` or `data.attributes.total` truthy), then
shopify-like (`line_items` truthy — not necessarily an array — and
`total_price` or `subtotal_price` truthy), then custom (`total_cents` or
`items` truthy), else unsupported, which the caller rejects with a 4xx
outcome; in particular a payload carrying a truthy paddle-like signal
and a truthy shopify-like signal (and no stripe-like signal) is
deterministically classified paddle-like. -/
theorem c4_detector_ordering :
    (∀ (p : Json) (now : ℤ), detectAndNormalize p now = runShape (classifyShape p) p now) ∧
    (∀ (p : Json) (now : ℤ), stripeCond p = false → paddleCond p = true →
      classifyShape p = some .paddle ∧
      detectAndNormalize p now = (normalizePaddleLoose p now).map some) := by
  constructor
  · exact detect_runShape
  · intro p now h1 h2
    constructor
    · unfold classifyShape
      simp [h1, h2]
    · unfold detectAndNormalize
      simp [h1, h2]

/-- Witness for the amended claim C4 at a payload with truthy paddle and
shopify signals. -/
theorem c4_detector_ordering_witness :
    (stripeCond paddleShopifyTruthy = false ∧ paddleCond paddleShopifyTruthy = true ∧
      shopifyCond paddleShopifyTruthy = true) ∧
    (classifyShape paddleShopifyTruthy = some .paddle ∧
      detectAndNormalize paddleShopifyTruthy 0 =
        (normalizePaddleLoose paddleShopifyTruthy 0).map some) :=
  ⟨⟨rfl, rfl, rfl⟩, c4_detector_ordering.2 paddleShopifyTruthy 0 rfl rfl⟩

/-! ## Claim C3 — totality of detection and normalization -/

lemma stripeEventTime_ok {p : Json} (now : ℤ)
    (h : (!(truthy (jget (some p) "created")) ||
      (match toNum (jget (some p) "created") with
       | none => false
       | some q => decide (|q * 1000| ≤ 8640000000000000))) = true) :
    ∃ t, stripeEventTime p now = .ok t := by
  cases ht : truthy (jget (some p) "created") with
  | false => exact ⟨.iso now, by simp [stripeEventTime, ht]⟩
  | true =>
      rw [ht] at h
      simp only [Bool.not_true, Bool.false_or] at h
      cases hn : toNum (jget (some p) "created") with
      | none => rw [hn] at h; cases h
      | some q =>
          rw [hn] at h
          rw [decide_eq_true_eq] at h
          exact ⟨.iso (ratTrunc (q * 1000)), by simp [stripeEventTime, ht, hn, h]⟩

lemma normalizeStripe_ok {p : Json} (now : ℤ) (h : stripeOk p = true) :
    ∃ e, normalizeStripeLoose p now = .ok e := by
  unfold stripeOk at h
  simp only [Bool.and_eq_true] at h
  obtain ⟨t, ht⟩ := stripeEventTime_ok now h.1
  obtain ⟨s, hs⟩ := curOk_toUpper h.2
  apply Exists.intro
  unfold normalizeStripeLoose
  rw [ht]
  dsimp only
  rw [hs]

lemma normalizePaddle_ok {p : Json} (now : ℤ)
    (h : curOk (jget (some p) "currency") = true) :
    ∃ e, normalizePaddleLoose p now = .ok e := by
  obtain ⟨s, hs⟩ := curOk_toUpper h
  apply Exists.intro
  unfold normalizePaddleLoose
  rw [hs]

lemma normalizeLemon_ok {p : Json} (now : ℤ)
    (h : curOk (jget (jget (jget (some p) "data") "attributes") "currency") = true) :
    ∃ e, normalizeLemonLoose p now = .ok e := by
  obtain ⟨s, hs⟩ := curOk_toUpper h
  apply Exists.intro
  unfold normalizeLemonLoose
  dsimp only
  rw [hs]

lemma shopifyItem_ok (c : String) {li : Json} (hn : li.isNull = false) :
    ∃ it, shopifyItem c li = .ok it := by
  apply Exists.intro
  unfold shopifyItem
  rw [jgetStrict_of_ne_null "title" hn]
  rw [jgetStrict_of_ne_null "quantity" hn]
  rw [jgetStrict_of_ne_null "price" hn]

lemma normalizeShopify_ok {p : Json} (now : ℤ)
    (h1 : curOk (jget (some p) "currency") = true) (h2 : shopifyItemsOk p = true) :
    ∃ e, normalizeShopifyLoose p now = .ok e := by
  obtain ⟨s, hs⟩ := curOk_toUpper h1
  unfold shopifyItemsOk at h2
  have hitems : ∃ ys, (match jget (some p) "line_items" with
      | some (.arr ls) => mapME (shopifyItem s) ls
      | _ => .ok []) = .ok ys := by
    cases hl : jget (some p) "line_items" with
    | none => exact ⟨[], rfl⟩
    | some j =>
        cases j with
        | null => exact ⟨[], rfl⟩
        | bool b => exact ⟨[], rfl⟩
        | num q => exact ⟨[], rfl⟩
        | str s2 => exact ⟨[], rfl⟩
        | obj fs => exact ⟨[], rfl⟩
        | arr ls =>
            rw [hl] at h2
            have h2' : ls.all (fun li => !li.isNull) = true := h2
            have hall : ∀ x ∈ ls, ∃ y, shopifyItem s x = .ok y := fun x hx =>
              shopifyItem_ok s (by simpa using List.all_eq_true.mp h2' x hx)
            obtain ⟨ys, hys⟩ := mapME_ok_of_all hall
            exact ⟨ys, hys⟩
  obtain ⟨ys, hys⟩ := hitems
  apply Exists.intro
  unfold normalizeShopifyLoose
  rw [hs]
  dsimp only
  rw [hys]

lemma customItem_ok (pcur : Option Json) {i : Json} (hn : i.isNull = false)
    (hc : curOk (jsOr (jget (some i) "currency") pcur) = true) :
    ∃ it, customItem pcur i = .ok it := by
  obtain ⟨s, hs⟩ := curOk_toUpper hc
  apply Exists.intro
  unfold customItem
  rw [jgetStrict_of_ne_null "name" hn]
  rw [jgetStrict_of_ne_null "quantity" hn]
  rw [jgetStrict_of_ne_null "unit_amount_cents" hn]
  rw [jgetStrict_of_ne_null "currency" hn]
  rw [jgetStrict_of_ne_null "is_bump" hn]
  dsimp only
  rw [hs]

lemma normalizeCustom_ok {p : Json} (now : ℤ) (h : customOk p = true) :
    ∃ e, normalizeCustom p now = .ok e := by
  unfold customOk at h
  simp only [Bool.and_eq_true] at h
  obtain ⟨s, hs⟩ := curOk_toUpper h.1
  have h2 := h.2
  have hitems : ∃ ys, (if truthy (jget (some p) "items") then
      match jget (some p) "items" with
      | some (.arr xs) => mapME (customItem (jget (some p) "currency")) xs
      | _ => .error "payload.items.map is not a function"
    else .ok []) = .ok ys := by
    cases ht : truthy (jget (some p) "items") with
    | false => exact ⟨[], rfl⟩
    | true =>
        rw [ht] at h2
        simp only [Bool.not_true, Bool.false_or] at h2
        cases hl : jget (some p) "items" with
        | none => rw [hl] at h2; cases h2
        | some j =>
            cases j with
            | null => rw [hl] at h2; cases h2
            | bool b => rw [hl] at h2; cases h2
            | num q => rw [hl] at h2; cases h2
            | str s2 => rw [hl] at h2; cases h2
            | obj fs => rw [hl] at h2; cases h2
            | arr xs =>
                rw [hl] at h2
                have h2' : xs.all (fun i => !i.isNull &&
                    curOk (jsOr (jget (some i) "currency") (jget (some p) "currency"))) = true := h2
                have hall : ∀ x ∈ xs, ∃ y, customItem (jget (some p) "currency") x = .ok y := by
                  intro x hx
                  have hxc := List.all_eq_true.mp h2' x hx
                  simp only [Bool.and_eq_true] at hxc
                  refine customItem_ok _ ?_ hxc.2
                  simpa using hxc.1
                obtain ⟨ys, hys⟩ := mapME_ok_of_all hall
                exact ⟨ys, hys⟩
  obtain ⟨ys, hys⟩ := hitems
  apply Exists.intro
  unfold normalizeCustom
  rw [hs]
  dsimp only
  rw [hys]

/-- Claim C3, as stated, is false: normalization can throw for
well-formed JSON.  A stripe-like payload with a truthy `created` that is
not a finite epoch value makes `new Date(created * 1000).toISOString()`
throw a `RangeError` ("Invalid time value") inside the normalizer, which
the worker surfaces as a 500 — a fatal outcome produced during
normalization, not validation. -/
theorem c3_counterexample :
    detectAndNormalize (.obj [("object", .str "event"), ("created", .str "x")]) 0 =
      .error "Invalid time value" := by
  simp [detectAndNormalize, stripeCond, isStrEq, jget, Json.lookupField, normalizeStripeLoose,
    stripeEventTime, truthy, toNum, toNumLeaf, parseNumStr, jsTrimList, parseNumCore, Except.map]

/-- Claim C3 (amended): detection itself never throws and returns
exactly one shape tag or unsupported (`detectAndNormalize` runs the
normalizer selected by the ordered classifier); and
detection-plus-normalization returns without throwing for every payload
satisfying `normOk` — that is, unless the selected normalizer hits one
of the concrete throw conditions: a stripe-like truthy `created` not
yielding a valid date, a truthy non-string currency field read by the
selected normalizer, a `null` element of a shopify-like `line_items`
array, or a custom-shape truthy `items` that is not an array or has a
`null` element or an item with a truthy non-string currency. -/
theorem c3_normalization_totality (p : Json) (now : ℤ) (h : normOk p = true) :
    exOk (detectAndNormalize p now) = true ∧
    detectAndNormalize p now = runShape (classifyShape p) p now := by
  refine ⟨?_, detect_runShape p now⟩
  rw [detect_runShape p now]
  unfold normOk at h
  cases hc : classifyShape p with
  | none => rfl
  | some sh =>
      rw [hc] at h
      cases sh with
      | stripe =>
          obtain ⟨e, he⟩ := normalizeStripe_ok now h
          simp [runShape, he, exOk, Except.map]
      | paddle =>
          obtain ⟨e, he⟩ := normalizePaddle_ok now h
          simp [runShape, he, exOk, Except.map]
      | lemon =>
          obtain ⟨e, he⟩ := normalizeLemon_ok now h
          simp [runShape, he, exOk, Except.map]
      | shopify =>
          rw [Bool.and_eq_true] at h
          obtain ⟨e, he⟩ := normalizeShopify_ok now h.1 h.2
          simp [runShape, he, exOk, Except.map]
      | custom =>
          obtain ⟨e, he⟩ := normalizeCustom_ok now h
          simp [runShape, he, exOk, Except.map]

/-- Witness for the amended claim C3 at the spec's concrete custom
payload. -/
theorem c3_normalization_totality_witness :
    normOk customW3 = true ∧
    (exOk (detectAndNormalize customW3 0) = true ∧
      detectAndNormalize customW3 0 = runShape (classifyShape customW3) customW3 0) := by
  have hok : normOk customW3 = true := by
    simp [normOk, classifyShape, stripeCond, paddleCond, lemonCond, shopifyCond, customCond,
      customOk, curOk, isStrEq, jget, Json.lookupField, truthy, jsOr, Json.isNull, customW3]
  exact ⟨hok, c3_normalization_totality customW3 0 hok⟩

/-! ## Claim C2 — validation order (staleness versus item checks) -/

/-- Claim C2, as stated, is false: the staleness check (lines 163-170 of
`fetch`) runs before the per-item validation (lines 172-183).  This
shopify-like event has an invalid item (quantity 1500, outside
[1, 1000]) and an `occurred_at` ten days before the clock value used
here (2026-10-11T00:00:00Z, epoch ms 1791676800000); the claim predicts
the item-validation reason, but the pipeline rejects with the staleness
reason. -/
theorem c2_counterexample :
    validatePipeline staleInvalidItem 1791676800000 = .reject "Event too old" 422 ∧
    normItemsCheck (detectAndNormalize staleInvalidItem 1791676800000) =
      some (some "Invalid quantity") := by
  have hd : dateParseE (.val (.str "2026-10-01T00:00:00.000Z")) = some 1790812800000 := by
    decide
  constructor
  · simp [validatePipeline, rawReject, isObjLike, centsCheck, centsKeys, detectAndNormalize,
      stripeCond, paddleCond, lemonCond, shopifyCond, customCond, isStrEq,
      normalizeShopifyLoose, shopifyItem, jgetStrict, toUpperCur, jsOr, jget, truthy,
      Json.lookupField, toNum, toNumLeaf, parseNumStr, jsTrimList, parseNumCore, jround,
      natOfDigits, digVal, mapME, Except.map, jsUpper, staleInvalidItem, hd]
    norm_num
  · simp [normItemsCheck, detectAndNormalize, stripeCond, paddleCond, lemonCond, shopifyCond,
      customCond, isStrEq, normalizeShopifyLoose, shopifyItem, jgetStrict, toUpperCur, jsOr,
      jget, truthy, Json.lookupField, toNum, toNumLeaf, parseNumStr, jsTrimList, parseNumCore,
      jround, natOfDigits, digVal, mapME, Except.map, jsUpper, staleInvalidItem,
      itemsCheck, itemCheck, jnOr, qIsInt, JNum.ltb, JNum.gtb, JNum.absGt, JNum.isInt]
    norm_num

/-- Claim C2 (amended): validation applies its checks in the order
(1) item-count and size ceilings on the raw payload, (2) raw cents-field
bounds, (3) staleness, (4) per-item `unit_amount_cents` and `quantity`
bounds, (5) the `total_cents` bound, first failure winning.  Hence for
every supported event that passes the raw checks and has both an invalid
item and an `occurred_at` more than 7 days old, the rejection reason is
the staleness reason, not the item-validation reason. -/
theorem c2_staleness_precedes_items (p : Json) (now : ℤ) {norm : NormalizedEvent} {t : ℤ}
    (hraw : rawReject p = none)
    (hnorm : detectAndNormalize p now = .ok (some norm))
    (ht : dateParseE norm.event_time = some t)
    (hstale : ((now : ℚ) - (t : ℚ)) / 86400000 > 7)
    (hbad : itemsCheck norm.items ≠ none) :
    validatePipeline p now = .reject "Event too old" 422 := by
  unfold validatePipeline
  simp only [hraw, hnorm]
  rw [ht]
  simp [hstale]

/-- Witness for the amended claim C2 at the concrete stale event with an
invalid item. -/
theorem c2_staleness_precedes_items_witness :
    validatePipeline staleInvalidItem 1791676800000 = .reject "Event too old" 422 := by
  have hnorm : detectAndNormalize staleInvalidItem 1791676800000 = .ok (some staleEvtW2) := by
    simp [detectAndNormalize, stripeCond, paddleCond, lemonCond, shopifyCond, customCond,
      isStrEq, normalizeShopifyLoose, shopifyItem, jgetStrict, toUpperCur, jsOr, jget, truthy,
      Json.lookupField, toNum, toNumLeaf, parseNumStr, jsTrimList, parseNumCore, jround,
      natOfDigits, digVal, mapME, Except.map, jsUpper, staleInvalidItem, staleEvtW2]
    norm_num
  have hbadW : itemsCheck staleEvtW2.items = some "Invalid quantity" := by
    simp [staleEvtW2, itemsCheck, itemCheck, jnOr, qIsInt, JNum.ltb, JNum.gtb, JNum.absGt]
    norm_num
  exact c2_staleness_precedes_items staleInvalidItem 1791676800000 rfl hnorm
    (t := 1790812800000) (by decide) (by norm_num)
    (by rw [hbadW]; exact Option.some_ne_none _)

/-! ## Claim C8 — staleness rule -/

/-- Claim C8: among events that pass the raw checks and normalize
successfully (the validator's earlier, first-failure-wins checks), an
event is rejected on staleness grounds (reason "Event too old", status
422) exactly when its stored `event_time` parses to a timestamp `t` with
`(now - t) / 86400000 > 7`; an unparseable timestamp never triggers the
staleness rejection (fail-open). -/
theorem c8_staleness_rule (p : Json) (now : ℤ) {norm : NormalizedEvent}
    (hraw : rawReject p = none)
    (hnorm : detectAndNormalize p now = .ok (some norm)) :
    (validatePipeline p now = .reject "Event too old" 422 ↔
      ∃ t, dateParseE norm.event_time = some t ∧ ((now : ℚ) - (t : ℚ)) / 86400000 > 7) := by
  unfold validatePipeline
  simp only [hraw, hnorm]
  cases hdp : dateParseE norm.event_time with
  | none =>
      constructor
      · intro hx
        exact absurd hx (afterStale_not_stale norm)
      · rintro ⟨t, ht2, _⟩
        cases ht2
  | some t0 =>
      dsimp only
      by_cases hs : ((now : ℚ) - (t0 : ℚ)) / 86400000 > 7
      · rw [if_pos hs]
        exact ⟨fun _ => ⟨t0, rfl, hs⟩, fun _ => rfl⟩
      · rw [if_neg hs]
        constructor
        · intro hx
          exact absurd hx (afterStale_not_stale norm)
        · rintro ⟨t1, ht1, hs1⟩
          injection ht1 with ht1
          subst ht1
          exact absurd hs1 hs

/-- Witness for claim C8, with the clock at 2026-10-11T00:00:00Z (epoch
ms 1791676800000): an otherwise-valid event dated 8 days earlier is
rejected with the stale-event reason, and one dated 6 days earlier is
accepted. -/
theorem c8_staleness_rule_witness :
    validatePipeline staleP8 1791676800000 = .reject "Event too old" 422 ∧
    isAccept (validatePipeline freshP6 1791676800000) = true := by
  have hnorm : detectAndNormalize staleP8 1791676800000 = .ok (some staleEvtP8) := by
    simp [detectAndNormalize, stripeCond, paddleCond, lemonCond, shopifyCond, customCond,
      isStrEq, normalizeShopifyLoose, shopifyItem, jgetStrict, toUpperCur, jsOr, jget, truthy,
      Json.lookupField, toNum, toNumLeaf, parseNumStr, jsTrimList, parseNumCore, jround,
      natOfDigits, digVal, mapME, Except.map, jsUpper, staleP8, staleEvtP8]
    norm_num
  constructor
  · exact (c8_staleness_rule staleP8 1791676800000 rfl hnorm).mpr
      ⟨1790985600000, by decide, by norm_num⟩
  · have hd6 : dateParseE (.val (.str "2026-10-05T00:00:00.000Z")) = some 1791158400000 := by
      decide
    simp [isAccept, validatePipeline, rawReject, isObjLike, centsCheck, centsKeys,
      detectAndNormalize, stripeCond, paddleCond, lemonCond, shopifyCond, customCond, isStrEq,
      normalizeShopifyLoose, shopifyItem, jgetStrict, toUpperCur, jsOr, jget, truthy,
      Json.lookupField, toNum, toNumLeaf, parseNumStr, jsTrimList, parseNumCore, jround,
      natOfDigits, digVal, mapME, Except.map, jsUpper, freshP6, hd6, afterStale, itemsCheck,
      itemCheck, jnOr, qIsInt, JNum.ltb, JNum.gtb, JNum.absGt, JNum.isInt]
    norm_num

/-! ## Claim C7 — bound enforcement before persistence -/

/-- Claim C7 states the code's clear intent (its item validation exists
precisely to reject invalid `unit_amount_cents`), but the code has a
slip: `Number.isInteger(it?.unit_amount_cents || 0)` masks `NaN`
(`NaN || 0` is `0`), and `Math.abs(NaN) > MAX_CENTS` is false, so a
custom item whose `unit_amount_cents` is the non-numeric string
`"abc"` — coerced to `NaN` by the normalizer — passes validation and
reaches persistence with a `NaN` amount, which is not an integer with
absolute value at most 100,000,000. -/
lemma toNum_num (q : ℚ) : toNum (some (.num q)) = some q := rfl

theorem c7_nan_item_reaches_persistence :
    acceptedUnits (validatePipeline nanItemPayload 1791676800000) = some [none] ∧
    JNum.isInt none = false := by
  have hraw7 : rawReject nanItemPayload = none := by
    have h100a : qIsInt (100 : ℚ) = true := by simp [qIsInt]
    have h100b : (decide ((100000000 : ℚ) < |(100 : ℚ)|)) = false := by norm_num
    simp [rawReject, isObjLike, centsCheck, centsKeys, jget, truthy, Json.lookupField,
      JNum.isInt, JNum.absGt, nanItemPayload, toNum_num, h100a, h100b, List.findSome?]
    norm_num
  have hnorm7 : detectAndNormalize nanItemPayload 1791676800000 = .ok (some nanEvt7) := by
    simp [detectAndNormalize, stripeCond, paddleCond, lemonCond, shopifyCond, customCond,
      isStrEq, normalizeCustom, customItem, jgetStrict, toUpperCur, jsOr, jsOrD, jget, truthy,
      Json.lookupField, toNum, toNumLeaf, parseNumStr, jsTrimList, parseNumCore, jround,
      natOfDigits, digVal, mapME, Except.map, jsUpper, nanItemPayload, nanEvt7]
  constructor
  · simp [acceptedUnits, validatePipeline, hraw7, hnorm7, dateParseE, nanEvt7, afterStale,
      itemsCheck, itemCheck, jnOr, qIsInt, JNum.ltb, JNum.gtb, JNum.absGt, JNum.isInt]
    norm_num
  · rfl
